import Mathlib

/-
Verification of the PepperPLDiscord deal pipeline (scraper.py, deal_filter.py,
alerts.py) through a shallow embedding in Lean 4.  Machine floats are modelled
as exact rationals, Python datetimes as integers tagged naive/aware, and the
external collaborators (HTTP, database) as explicit function parameters.
-/

namespace PepperPL

instance {ε α : Type} [DecidableEq ε] [DecidableEq α] : DecidableEq (Except ε α) :=
  fun x y =>
    match x, y with
    | Except.error a, Except.error b =>
      if h : a = b then isTrue (by rw [h]) else isFalse (by intro hc; cases hc; exact h rfl)
    | Except.ok a, Except.ok b =>
      if h : a = b then isTrue (by rw [h]) else isFalse (by intro hc; cases hc; exact h rfl)
    | Except.error _, Except.ok _ => isFalse (by intro hc; cases hc)
    | Except.ok _, Except.error _ => isFalse (by intro hc; cases hc)

/-- Decides whether the first character list is a prefix of the second. -/
def listStartsWith : List Char → List Char → Bool
  | [], _ => true
  | _ :: _, [] => false
  | p :: ps, c :: cs => p == c && listStartsWith ps cs

/-- Decides whether `pat` occurs as a contiguous substring of the second list.
Models the Python expression `pat in s` on strings. -/
def listHasSub (pat : List Char) : List Char → Bool
  | [] => pat.isEmpty
  | c :: rest => listStartsWith pat (c :: rest) || listHasSub pat rest

/-- Numeric value of a list of ASCII digits, most significant first. -/
def digitsVal (cs : List Char) : Nat :=
  cs.foldl (fun n c => 10 * n + (c.toNat - 48)) 0

/-- Model of Python `str.lower` restricted to ASCII letters plus the Polish
uppercase letters that can occur in the price strings of this program. -/
def pyLowerChar (c : Char) : Char :=
  if 'A' ≤ c && c ≤ 'Z' then Char.ofNat (c.toNat + 32)
  else if c = 'Ł' then 'ł'
  else if c = 'Ó' then 'ó'
  else if c = 'Ą' then 'ą'
  else if c = 'Ć' then 'ć'
  else if c = 'Ę' then 'ę'
  else if c = 'Ń' then 'ń'
  else if c = 'Ś' then 'ś'
  else if c = 'Ź' then 'ź'
  else if c = 'Ż' then 'ż'
  else c

/-- Model of Python `str.lower` (see `pyLowerChar`). -/
def pyLower (s : String) : String :=
  String.mk (s.data.map pyLowerChar)

/-- Fuel-indexed worker for `pyReplace`; the fuel is the length of the scanned
list, which bounds the number of steps. -/
def replaceFuel (p : Char) (ps rep : List Char) : Nat → List Char → List Char
  | _, [] => []
  | 0, s => s
  | fuel + 1, c :: rest =>
    if p == c && listStartsWith ps rest then
      rep ++ replaceFuel p ps rep fuel (rest.drop ps.length)
    else
      c :: replaceFuel p ps rep fuel rest

/-- Model of Python `str.replace`: replaces every non-overlapping occurrence of
`pat` in `s` by `rep`, scanning left to right. -/
def pyReplace (s pat rep : String) : String :=
  match pat.data with
  | [] => s
  | p :: ps => String.mk (replaceFuel p ps rep.data s.data.length s.data)

/-- Core of `parseFloat`: parses an unsigned decimal literal, with an optional
single dot and at least one digit overall.  The value is assembled with
`mkRat` so that it is an exact rational. -/
def parseFloatCore (cs : List Char) : Option Rat :=
  let ip := cs.takeWhile Char.isDigit
  let rest := cs.drop ip.length
  match rest with
  | [] => if ip.isEmpty then none else some (mkRat (digitsVal ip) 1)
  | '.' :: fr =>
    if fr.all Char.isDigit && !(ip.isEmpty && fr.isEmpty) then
      some (mkRat (digitsVal ip * 10 ^ fr.length + digitsVal fr) (10 ^ fr.length))
    else none
  | _ => none

/-- Model of Python's builtin `float` on the sign/decimal literal forms that the
program's cleaned price strings take; other accepted forms (exponents,
`inf`/`nan`, underscore separators) are outside the model's input range and
are treated as failures. Returns `none` where `float` raises `ValueError`. -/
def parseFloat (s : String) : Option Rat :=
  match s.data with
  | [] => none
  | '+' :: r => parseFloatCore r
  | '-' :: r => (parseFloatCore r).map (fun q => -q)
  | _ => parseFloatCore s.data

/-- Model of Python's builtin `int` on strings: optional sign followed by at
least one ASCII digit; `none` where `int` raises `ValueError`. -/
def parsePyInt (s : String) : Option Int :=
  match s.data with
  | [] => none
  | '-' :: r => if !r.isEmpty && r.all Char.isDigit then some (-((digitsVal r : Nat) : Int)) else none
  | '+' :: r => if !r.isEmpty && r.all Char.isDigit then some ((digitsVal r : Nat) : Int) else none
  | cs => if cs.all Char.isDigit then some ((digitsVal cs : Nat) : Int) else none

/-- Model of a Python `datetime.datetime`: an instant (seconds on an absolute
scale, UTC for aware values) tagged with whether the object carries timezone
information.  `datetime.datetime.now()` is naive; `fromisoformat` on a string
with a trailing offset is aware. -/
inductive PyTime where
  | naive (t : Int)
  | aware (t : Int)
deriving DecidableEq

/-- Model of Python `a < b` on datetimes: comparing a naive with an aware
datetime raises `TypeError`, modelled as `none`. -/
def PyTime.ltRes : PyTime → PyTime → Option Bool
  | .naive a, .naive b => some (decide (a < b))
  | .aware a, .aware b => some (decide (a < b))
  | _, _ => none

/-- The canonical deal record produced by both extraction strategies
(`scraper.py`), consumed by `deal_filter.py` and `alerts.py`.  Field names and
nullability follow the Python dicts; prices are the formatted strings, numeric
values being derived by the price parsers below. -/
structure Deal where
  title : String
  link : String
  price : Option String
  next_best_price : Option String
  temperature : Int
  merchant : String
  image_url : Option String
  voucher_code : Option String
  posted_timestamp : Option PyTime
  status : String
deriving DecidableEq

/-- Constant `FRESHNESS_CUTOFF_HOURS` shared by `deal_filter.py` and
`alerts.py`. -/
def FRESHNESS_CUTOFF_HOURS : Int := 24

/-- Constant `MIN_TEMPERATURE` shared by `deal_filter.py` and `alerts.py`. -/
def MIN_TEMPERATURE : Int := 50

/-- Constant `MAX_REASONABLE_PRICE` shared by `deal_filter.py` and
`alerts.py`. -/
def MAX_REASONABLE_PRICE : Rat := 1000000

/-- The cleaning step shared by both `_parse_price` functions:
`price_str.lower().replace("zł", "").replace(" ", "").replace(",", ".")`. -/
def cleanPrice (s : String) : String :=
  pyReplace (pyReplace (pyReplace (pyLower s) ("zł") ("")) (" ") ("")) (",") (".")

/-- The free-of-charge keyword test of both `_parse_price` functions: whether
the cleaned string contains `darm`, `free` or `bezpłatn` as a substring. -/
def hasKw (s : String) : Bool :=
  listHasSub ("darm").data s.data || listHasSub ("free").data s.data ||
    listHasSub ("bezpłatn").data s.data

namespace DealFilter

/-- `DealFilter._parse_price` from `deal_filter.py`: `None` or the empty string
is a parse failure; otherwise the string is cleaned, the free-of-charge
keywords map to 0.0, and anything else goes through `float` (a `ValueError`
yielding `None`). -/
def parse_price (price : Option String) : Option Rat :=
  match price with
  | none => none
  | some s =>
    if s = "" then none
    else if hasKw (cleanPrice s) then some 0
    else parseFloat (cleanPrice s)

end DealFilter

namespace AlertsManager

/-- `AlertsManager._parse_price` from `alerts.py`; textually the same
algorithm as `DealFilter._parse_price`. -/
def parse_price (price : Option String) : Option Rat :=
  match price with
  | none => none
  | some s =>
    if s = "" then none
    else if hasKw (cleanPrice s) then some 0
    else parseFloat (cleanPrice s)

end AlertsManager

/-- The subscriber/filter price-cap condition
`max_price is not None and deal_price > 0 and deal_price > max_price`
(appearing in both `deal_filter.py` line 76 and `alerts.py` lines 96-98);
`true` means the deal is rejected by the cap. -/
def capGate (max_price : Option Rat) (p : Rat) : Bool :=
  match max_price with
  | some mp => decide (p > 0) && decide (p > mp)
  | none => false

/-- The freshness test shared by `DealFilter.filter_deals` and
`AlertsManager.check_alerts`: `some true` means the deal is rejected as too
old, `some false` that it passes, and `none` that the Python comparison
`posted_time < freshness_cutoff` raised `TypeError` (aware vs naive).  The
branch re-parsing a string-valued timestamp collapses in this embedding, where
the field is already a datetime or absent. -/
def freshGate (cutoff : Int) (d : Deal) : Option Bool :=
  match d.posted_timestamp with
  | none => some false
  | some pt => PyTime.ltRes pt (PyTime.naive cutoff)

/-- The keyword arguments of `DealFilter.filter_deals`. -/
structure FilterConfig where
  check_freshness : Bool
  check_temperature : Bool
  check_price : Bool
  min_temperature : Option Int
  max_price : Option Rat
deriving DecidableEq

/-- The default configuration of `DealFilter.filter_deals` (all gates on, no
override threshold, no cap). -/
def defaultCfg : FilterConfig := ⟨true, true, true, none, none⟩

/-- The price gate block of `DealFilter.filter_deals` (lines 60-81): a deal
passes iff its price parses, is at most `MAX_REASONABLE_PRICE`, and clears the
optional `max_price` cap. -/
def priceGate (max_price : Option Rat) (d : Deal) : Bool :=
  match DealFilter.parse_price d.price with
  | none => false
  | some p =>
    if decide (p > MAX_REASONABLE_PRICE) then false
    else if capGate max_price p then false
    else true

/-- One iteration of the `DealFilter.filter_deals` loop body: `ok true` keeps
the deal, `ok false` drops it, `error ()` models the uncaught `TypeError`
raised when an aware timestamp is compared with the naive cutoff. -/
def keepDealE (cfg : FilterConfig) (cutoff : Int) (d : Deal) : Except Unit Bool :=
  match (if cfg.check_freshness then freshGate cutoff d else some false) with
  | none => Except.error ()
  | some true => Except.ok false
  | some false =>
    if cfg.check_temperature && decide (d.temperature < cfg.min_temperature.getD MIN_TEMPERATURE) then
      Except.ok false
    else if cfg.check_price && !(priceGate cfg.max_price d) then
      Except.ok false
    else
      Except.ok true

/-- The freshness cutoff `current_time - timedelta(hours=24)`, with instants
measured in seconds. -/
def fdCutoff (now : Int) : Int := now - FRESHNESS_CUTOFF_HOURS * 3600

/-- `DealFilter.filter_deals` from `deal_filter.py`: keeps, in order, the deals
passing every enabled gate; an uncaught `TypeError` from the freshness
comparison aborts the whole call (`error ()`). -/
def filter_deals (cfg : FilterConfig) (now : Int) : List Deal → Except Unit (List Deal)
  | [] => Except.ok []
  | d :: ds =>
    match keepDealE cfg (fdCutoff now) d with
    | Except.error e => Except.error e
    | Except.ok true =>
      match filter_deals cfg now ds with
      | Except.error e => Except.error e
      | Except.ok rest => Except.ok (d :: rest)
    | Except.ok false => filter_deals cfg now ds

/-- Model of the `publishedAt` field of a thread, abstracted by the outcome of
`datetime.fromisoformat(published_at.replace('Z', '+00:00'))`: the field is
absent (or falsy), malformed (`ValueError`), a zone-less string giving a naive
datetime, or a string with a trailing `Z`/offset giving an aware datetime. -/
inductive IsoField where
  | absent
  | malformed
  | naiveTs (t : Int)
  | zulu (t : Int)
deriving DecidableEq

/-- Model of the `mainImage` JSON object; empty strings stand for absent/falsy
`path`/`name` components. -/
structure MainImage where
  path : String
  name : String
  ext : Option String
deriving DecidableEq

/-- Model of the decoded `props.thread` JSON object of Strategy A, holding
exactly the fields `_parse_thread_data` reads.  Defaults applied by
`thread.get(key, default)` are collapsed into the fields (`title`, `threadId`,
`titleSlug`, `shareableLink`, `voucherCode`, `status`, `temperature` hold their
Python default when the key is absent); numeric amounts are exact rationals. -/
structure Thread where
  status : String
  isExpired : Bool
  isArchived : Bool
  title : String
  threadId : String
  titleSlug : String
  shareableLink : String
  price : Option Rat
  nextBestPrice : Option Rat
  temperature : Rat
  merchant : Option String
  mainImage : Option MainImage
  voucherCode : String
  publishedAt : IsoField
deriving DecidableEq

/-- `PepperScraper.BASE_URL`. -/
def BASE_URL : String := "https://www.pepper.pl"

/-- Model of Python `int(x)` on a float value: truncation toward zero. -/
def pyIntOfRat (q : Rat) : Int :=
  if 0 ≤ q then q.floor else q.ceil

/-- Rendering `f"{price} zł" if price else None`: Python truthiness makes both
an absent amount and a present amount of 0 render as `None`. -/
def render_price (p : Option Rat) : Option String :=
  match p with
  | none => none
  | some v => if v = 0 then none else some (toString v ++ " zł")

/-- `PepperScraper._parse_thread_data` from `scraper.py`: discards unavailable
threads (expired/archived/deleted), composes the link from slug and id when
both are truthy (else the shareable link), renders prices, truncates the
temperature to an int, composes the image URL only when `path` and `name` are
truthy (a missing `ext` rendering as the literal text `None`, as the f-string
does), and turns `publishedAt` into a datetime, `None` on any parse failure. -/
def parse_thread_data (t : Thread) : Option Deal :=
  if t.isExpired || t.isArchived || t.status = "expired" || t.status = "archived"
      || t.status = "deleted" then
    none
  else
    some
      { title := t.title
        link :=
          if t.titleSlug ≠ "" && t.threadId ≠ "" then
            BASE_URL ++ "/promocje/" ++ t.titleSlug ++ "-" ++ t.threadId
          else t.shareableLink
        price := render_price t.price
        next_best_price := render_price t.nextBestPrice
        temperature := pyIntOfRat t.temperature
        merchant := t.merchant.getD ("Nieznany")
        image_url :=
          match t.mainImage with
          | none => none
          | some mi =>
            if mi.path ≠ "" && mi.name ≠ "" then
              some ("https://static.pepper.pl/" ++ mi.path ++ "/" ++ mi.name ++
                "/re/600x600/qt/80/" ++ mi.name ++ "." ++ mi.ext.getD ("None"))
            else none
        voucher_code := some t.voucherCode
        posted_timestamp :=
          match t.publishedAt with
          | IsoField.absent => none
          | IsoField.malformed => none
          | IsoField.naiveTs v => some (PyTime.naive v)
          | IsoField.zulu v => some (PyTime.aware v)
        status := t.status }

/-- Model of one `article.thread` DOM element of Strategy B, holding the
pieces the independent null-safe lookups of
`_parse_article_html_selectolax` read: the primary anchor (stripped text and
`href` attribute, `""` when absent), and the optional stripped texts / `src`
attribute of the sibling elements. -/
structure Article where
  title_anchor : Option (String × String)
  price_text : Option String
  temp_text : Option String
  merchant_text : Option String
  image_src : Option (Option String)
deriving DecidableEq

/-- `PepperScraper._parse_article_html_selectolax` from `scraper.py`: gives up
(`None`) without a title anchor; prefixes relative links with the base URL;
parses the temperature by stripping the degree sign, defaulting to 0;
timestamp and voucher are always `None` on this path. -/
def parse_article_html_selectolax (a : Article) : Option Deal :=
  match a.title_anchor with
  | none => none
  | some ta =>
    some
      { title := ta.1
        link :=
          if ta.2 ≠ "" && !(ta.2.startsWith ("http")) then BASE_URL ++ ta.2 else ta.2
        price := a.price_text
        next_best_price := none
        temperature :=
          (parsePyInt (match a.temp_text with
            | some s => pyReplace s ("°") ("")
            | none => "0")).getD 0
        merchant := a.merchant_text.getD ("Nieznany")
        image_url :=
          match a.image_src with
          | some src => src
          | none => none
        voucher_code := none
        posted_timestamp := none
        status := "unknown" }

/-- Model of one `[data-vue3]` element, abstracted by the branch of the
Strategy A loop it takes: marker string absent, JSON decode failure, decoded
JSON without `props.thread`, or a decoded thread. -/
inductive VueElement where
  | notNormalizer
  | badJson
  | noThread
  | thread (t : Thread)
deriving DecidableEq

/-- One iteration of the Strategy A loop: only a decoded `props.thread`
surviving `_parse_thread_data` contributes a deal. -/
def vueStep : VueElement → Option Deal
  | VueElement.thread t => parse_thread_data t
  | _ => none

/-- Model of a fetched page, as seen by the two CSS queries of
`_extract_deals_from_html`. -/
structure Html where
  vueItems : List VueElement
  articles : List Article
deriving DecidableEq

/-- The Strategy A (structured-embed) pass of `_extract_deals_from_html`. -/
def stratA (h : Html) : List Deal :=
  h.vueItems.filterMap vueStep

/-- The Strategy B (DOM fallback) pass of `_extract_deals_from_html`. -/
def stratB (h : Html) : List Deal :=
  h.articles.filterMap parse_article_html_selectolax

/-- `PepperScraper._extract_deals_from_html` from `scraper.py`: Strategy A
first; its result is returned whenever non-empty, otherwise Strategy B runs. -/
def extract_deals_from_html (h : Html) : List Deal :=
  let deals := stratA h
  if deals ≠ [] then deals else stratB h

/-- Model of the outcome of one `session.get` attempt: an HTTP response with a
status code and page, a network/timeout error (`aiohttp.ClientError` /
`asyncio.TimeoutError`), or any other exception. -/
inductive FetchAttempt where
  | status (code : Nat) (h : Html)
  | netError (msg : String)
  | otherError (msg : String)
deriving DecidableEq

/-- The result dict of `_fetch_and_parse`: `total` is only present on success,
`error` only on failure. -/
structure FetchResult where
  success : Bool
  error : Option String
  deals : List Deal
  total : Option Nat
deriving DecidableEq

/-- The failure dict `{"success": False, "error": msg, "deals": []}`. -/
def failRes (msg : String) : FetchResult :=
  { success := false, error := some msg, deals := [], total := none }

/-- The transient-status test `response.status in [429, 500, 502, 503, 504]`. -/
def isTransient (code : Nat) : Bool :=
  code == 429 || code == 500 || code == 502 || code == 503 || code == 504

/-- The `for attempt in range(retries)` loop of `_fetch_and_parse`, over the
list of remaining attempt indices; `net` gives the outcome of each attempt.
Falling off the loop returns the `Max retries exceeded` failure; a network
error on the final attempt (`attempt == retries - 1`) returns a failure holding
that error's own message. -/
def fetchLoop (net : Nat → FetchAttempt) (limit retries : Nat) : List Nat → FetchResult
  | [] => failRes ("Max retries exceeded")
  | a :: rest =>
    match net a with
    | FetchAttempt.status code h =>
      if code = 200 then
        let deals := extract_deals_from_html h
        { success := true, error := none, deals := deals.take limit, total := some deals.length }
      else if isTransient code then fetchLoop net limit retries rest
      else failRes ("HTTP " ++ toString code)
    | FetchAttempt.netError msg =>
      if a = retries - 1 then failRes msg else fetchLoop net limit retries rest
    | FetchAttempt.otherError msg => failRes msg

/-- `PepperScraper._fetch_and_parse` from `scraper.py` (default `retries = 3`),
with the network collaborator abstracted as the per-attempt outcome `net`. -/
def fetch_and_parse (net : Nat → FetchAttempt) (limit retries : Nat) : FetchResult :=
  fetchLoop net limit retries (List.range retries)

/-- One row of `get_alerts_by_query`: a subscriber `{id, user_id, max_price}`. -/
structure Sub where
  id : Nat
  user_id : Nat
  max_price : Option Rat
deriving DecidableEq

/-- One record appended to `notifications` in `check_alerts`:
`{user_id, deal, query}`. -/
structure Notif where
  user_id : Nat
  deal : Deal
  query : String
deriving DecidableEq

/-- The mutable state of one `check_alerts` sweep: the emitted records, the
keys staged for the batched ledger write, and the in-memory per-sweep cache
(Python `set`, modelled as a duplicate-free list built by guarded appends). -/
structure SweepState where
  notifications : List Notif
  batch_seen : List (Nat × String)
  seen_in_cycle : List (Nat × String)
deriving DecidableEq

/-- The initial state of a sweep: `check_alerts` allocates all three
containers fresh and empty on each call. -/
def initState : SweepState := ⟨[], [], []⟩

/-- The body of the `for sub in subscribers` loop of `check_alerts`
(lines 83-106), for a deal whose parsed price is `p`: steps 1 (same-sweep
cache), 2 (persistent ledger), 3 (subscriber price cap, leaving no trace), and
4 (emit and stage), in the source's strict order. -/
def subStep (ledger : Nat → String → Bool) (query : String) (deal : Deal) (p : Rat)
    (st : SweepState) (sub : Sub) : SweepState :=
  if (sub.id, deal.link) ∈ st.seen_in_cycle then st
  else if ledger sub.id deal.link then
    { st with seen_in_cycle := st.seen_in_cycle ++ [(sub.id, deal.link)] }
  else if capGate sub.max_price p then st
  else
    { notifications := st.notifications ++ [⟨sub.user_id, deal, query⟩]
      batch_seen := st.batch_seen ++ [(sub.id, deal.link)]
      seen_in_cycle := st.seen_in_cycle ++ [(sub.id, deal.link)] }

/-- The body of the `for deal in result["deals"]` loop of `check_alerts`
(lines 53-106): freshness (whose aware-vs-naive `TypeError` is uncaught, hence
`error ()`), temperature, price parse and ceiling, then the subscriber loop. -/
def dealStep (ledger : Nat → String → Bool) (subs : List Sub) (query : String)
    (now : Int) (st : SweepState) (deal : Deal) : Except Unit SweepState :=
  match freshGate (fdCutoff now) deal with
  | none => Except.error ()
  | some true => Except.ok st
  | some false =>
    if decide (deal.temperature < MIN_TEMPERATURE) then Except.ok st
    else
      match AlertsManager.parse_price deal.price with
      | none => Except.ok st
      | some p =>
        if decide (p > MAX_REASONABLE_PRICE) then Except.ok st
        else Except.ok (subs.foldl (subStep ledger query deal p) st)

/-- Left fold over a list in the `Except` monad, modelling a Python loop from
which an uncaught exception propagates. -/
def foldE {σ α : Type} (f : σ → α → Except Unit σ) : σ → List α → Except Unit σ
  | s, [] => Except.ok s
  | s, a :: l =>
    match f s a with
    | Except.error e => Except.error e
    | Except.ok s' => foldE f s' l

/-- The body of the `for query in unique_queries` loop of `check_alerts`
(lines 42-109): a failed fetch or an unwatched query is skipped whole,
otherwise every fetched deal is processed.  The polite inter-query sleep has
no effect on the state. -/
def queryStep (scrape : String → FetchResult) (subsOf : String → List Sub)
    (ledger : Nat → String → Bool) (now : Int) (st : SweepState) (query : String) :
    Except Unit SweepState :=
  if !(scrape query).success then Except.ok st
  else if (subsOf query).isEmpty then Except.ok st
  else foldE (dealStep ledger (subsOf query) query now) st (scrape query).deals

/-- `AlertsManager.check_alerts` from `alerts.py`, with the collaborators
abstracted: `scrape` stands for `scraper.search_deals(query, limit=5,
sort="new")`, `subsOf` for `db.get_alerts_by_query`, and `ledger` for
`db.is_deal_seen_by_alert`, which is unchanged during the sweep since
`mark_deals_seen_batch` runs only after it.  Returns the emitted records and
the batch passed to `mark_deals_seen_batch`. -/
def check_alerts (queries : List String) (scrape : String → FetchResult)
    (subsOf : String → List Sub) (ledger : Nat → String → Bool) (now : Int) :
    Except Unit (List Notif × List (Nat × String)) :=
  match foldE (queryStep scrape subsOf ledger now) initState queries with
  | Except.error e => Except.error e
  | Except.ok st => Except.ok (st.notifications, st.batch_seen)

theorem foldl_inv {σ α : Type} (P : σ → Prop) (f : σ → α → σ)
    (hf : ∀ s a, P s → P (f s a)) :
    ∀ (l : List α) (s : σ), P s → P (l.foldl f s) := by
  intro l
  induction l with
  | nil => intro s hs; simpa using hs
  | cons a l ih => intro s hs; simpa using ih (f s a) (hf s a hs)

theorem foldE_inv {σ α : Type} (P : σ → Prop) (f : σ → α → Except Unit σ)
    (hf : ∀ s a s', P s → f s a = Except.ok s' → P s') :
    ∀ (l : List α) (s s' : σ), P s → foldE f s l = Except.ok s' → P s' := by
  intro l
  induction l with
  | nil =>
    intro s s' hs h
    unfold foldE at h
    cases h
    exact hs
  | cons a l ih =>
    intro s s' hs h
    unfold foldE at h
    cases hfa : f s a with
    | error e => rw [hfa] at h; cases h
    | ok s1 => rw [hfa] at h; exact ih s1 s' (hf s a s1 hs hfa) h

theorem dealStep_pres (P : SweepState → Prop) (ledger : Nat → String → Bool)
    (hsub : ∀ query deal p st sub, P st → P (subStep ledger query deal p st sub))
    (subs : List Sub) (query : String) (now : Int)
    (st : SweepState) (deal : Deal) (st' : SweepState)
    (h : P st) (he : dealStep ledger subs query now st deal = Except.ok st') : P st' := by
  unfold dealStep at he
  split at he
  · cases he
  · cases he
    exact h
  · split at he
    · cases he
      exact h
    · split at he
      · cases he
        exact h
      · rename_i p hp
        split at he
        · cases he
          exact h
        · cases he
          exact foldl_inv P _ (fun s a => hsub query deal p s a) subs st h

theorem queryStep_pres (P : SweepState → Prop) (ledger : Nat → String → Bool)
    (hsub : ∀ query deal p st sub, P st → P (subStep ledger query deal p st sub))
    (scrape : String → FetchResult) (subsOf : String → List Sub)
    (now : Int) (st : SweepState) (query : String)
    (st' : SweepState)
    (h : P st) (he : queryStep scrape subsOf ledger now st query = Except.ok st') : P st' := by
  unfold queryStep at he
  split at he
  · cases he; exact h
  · split at he
    · cases he; exact h
    · exact foldE_inv P _
        (fun s a s' hs hstep => dealStep_pres P ledger hsub _ query now s a s' hs hstep)
        _ st st' h he

theorem check_alerts_pres (P : SweepState → Prop) (ledger : Nat → String → Bool)
    (hsub : ∀ query deal p st sub, P st → P (subStep ledger query deal p st sub))
    (hinit : P initState)
    (queries : List String) (scrape : String → FetchResult) (subsOf : String → List Sub)
    (now : Int) (st' : SweepState)
    (h : foldE (queryStep scrape subsOf ledger now) initState queries = Except.ok st') :
    P st' :=
  foldE_inv P _
    (fun s a s' hs hstep => queryStep_pres P ledger hsub scrape subsOf now s a s' hs hstep)
    queries initState st' hinit h

/-- The per-sweep deduplication invariant: staged keys are pairwise distinct,
every staged key is in the in-memory cache, and emitted records and staged
keys are in lockstep (appended together at step 4). -/
def DedupInv (st : SweepState) : Prop :=
  st.batch_seen.Nodup ∧
  (∀ k, k ∈ st.batch_seen → k ∈ st.seen_in_cycle) ∧
  st.notifications.length = st.batch_seen.length

theorem subStep_dedup (ledger : Nat → String → Bool) (query : String) (deal : Deal)
    (p : Rat) (st : SweepState) (sub : Sub) (h : DedupInv st) :
    DedupInv (subStep ledger query deal p st sub) := by
  obtain ⟨h1, h2, h3⟩ := h
  unfold subStep
  split
  · exact ⟨h1, h2, h3⟩
  · rename_i hmem
    split
    · refine ⟨h1, ?_, h3⟩
      intro k hk
      exact List.mem_append_left _ (h2 k hk)
    · split
      · exact ⟨h1, h2, h3⟩
      · refine ⟨?_, ?_, ?_⟩
        · have hnb : (sub.id, deal.link) ∉ st.batch_seen := fun hk => hmem (h2 _ hk)
          simp [List.nodup_append, h1, hnb]
        · intro k hk
          rcases List.mem_append.mp hk with hk | hk
          · exact List.mem_append_left _ (h2 k hk)
          · exact List.mem_append_right _ hk
        · simp [h3]

/-- The ledger invariant: every staged key was absent from the persistent
ledger when staged (step 2 short-circuits first). -/
def LedgerInv (ledger : Nat → String → Bool) (st : SweepState) : Prop :=
  ∀ k, k ∈ st.batch_seen → ledger k.1 k.2 = false

theorem subStep_ledger (ledger : Nat → String → Bool) (query : String) (deal : Deal)
    (p : Rat) (st : SweepState) (sub : Sub) (h : LedgerInv ledger st) :
    LedgerInv ledger (subStep ledger query deal p st sub) := by
  unfold subStep
  split
  · exact h
  · split
    · exact h
    · split
      · exact h
      · rename_i hled _
        intro k hk
        rcases List.mem_append.mp hk with hk | hk
        · exact h k hk
        · simp only [List.mem_singleton] at hk
          subst hk
          simpa using hled

theorem filter_deals_keep (cfg : FilterConfig) (now : Int) :
    ∀ ds out : List Deal, filter_deals cfg now ds = Except.ok out →
      ∀ d ∈ out, keepDealE cfg (fdCutoff now) d = Except.ok true := by
  intro ds
  induction ds with
  | nil =>
    intro out h
    unfold filter_deals at h
    cases h
    intro d hd
    cases hd
  | cons a l ih =>
    intro out h
    unfold filter_deals at h
    split at h
    · cases h
    · rename_i hk
      split at h
      · cases h
      · rename_i rest hrest
        cases h
        intro d hd
        rcases List.mem_cons.mp hd with hd | hd
        · subst hd; exact hk
        · exact ih rest hrest d hd
    · rename_i hk
      intro d hd
      exact ih out h d hd

theorem filter_deals_all (cfg : FilterConfig) (now : Int) :
    ∀ l : List Deal, (∀ d ∈ l, keepDealE cfg (fdCutoff now) d = Except.ok true) →
      filter_deals cfg now l = Except.ok l := by
  intro l
  induction l with
  | nil => intro _; rfl
  | cons a l ih =>
    intro hall
    unfold filter_deals
    rw [hall a (List.mem_cons_self a l), ih (fun d hd => hall d (List.mem_cons_of_mem a hd))]

theorem filter_deals_sublist (cfg : FilterConfig) (now : Int) :
    ∀ ds out : List Deal, filter_deals cfg now ds = Except.ok out → List.Sublist out ds := by
  intro ds
  induction ds with
  | nil =>
    intro out h
    unfold filter_deals at h
    cases h
    exact List.Sublist.refl []
  | cons a l ih =>
    intro out h
    unfold filter_deals at h
    split at h
    · cases h
    · split at h
      · cases h
      · rename_i rest hrest
        cases h
        exact List.Sublist.cons₂ a (ih rest hrest)
    · exact List.Sublist.cons a (ih out h)

/-- Claim C1: for every sweep of `check_alerts` that runs to completion, the
keys staged for the batched ledger write are pairwise distinct, and the
emitted `{user_id, query, deal}` records are in bijection with the staged
keys (one record is appended exactly when its `(alert_id, deal_link)` key is
staged, at step 4), so for a fixed `(alert_id, deal_link)` at most one record
is emitted per sweep and the key is staged at most once, even when the same
deal is reached again through a duplicate listing, query or subscriber row. -/
theorem check_alerts_dedup
    (queries : List String) (scrape : String → FetchResult)
    (subsOf : String → List Sub) (ledger : Nat → String → Bool) (now : Int)
    (notifs : List Notif) (batch : List (Nat × String))
    (h : check_alerts queries scrape subsOf ledger now = Except.ok (notifs, batch)) :
    batch.Nodup ∧ notifs.length = batch.length := by
  unfold check_alerts at h
  cases hfold : foldE (queryStep scrape subsOf ledger now) initState queries with
  | error e => rw [hfold] at h; cases h
  | ok st =>
    rw [hfold] at h
    cases h
    have hinv : DedupInv st :=
      check_alerts_pres DedupInv ledger
        (fun query deal p s sub hs => subStep_dedup ledger query deal p s sub hs)
        (by refine ⟨List.nodup_nil, ?_, rfl⟩; intro k hk; cases hk)
        queries scrape subsOf now st hfold
    exact ⟨hinv.1, hinv.2.2⟩

/-- A deal passing all gates of `check_alerts`, used as a concrete test
vector. -/
def wDeal : Deal :=
  { title := "Deal", link := "L", price := some ("100 zł"), next_best_price := none,
    temperature := 60, merchant := "M", image_url := none, voucher_code := none,
    posted_timestamp := none, status := "unknown" }

/-- A scraper stub whose search result repeats the same deal twice. -/
def wScrape : String → FetchResult := fun _ =>
  { success := true, error := none, deals := [wDeal, wDeal], total := some 2 }

/-- A single subscriber (alert id 1, user 10, no cap) for every query. -/
def wSubs : String → List Sub := fun _ => [⟨1, 10, none⟩]

/-- An empty persistent ledger. -/
def wLedgerF : Nat → String → Bool := fun _ _ => false

/-- A ledger that already holds every key. -/
def wLedgerT : Nat → String → Bool := fun _ _ => true

theorem check_alerts_dedup_witness :
    ([((1 : Nat), "L")]).Nodup ∧
      ([(⟨10, wDeal, "q"⟩ : Notif)]).length = ([((1 : Nat), "L")]).length :=
  check_alerts_dedup (["q"]) wScrape wSubs wLedgerF 0 ([⟨10, wDeal, "q"⟩]) ([(1, "L")])
    (by decide)

/-- Claim C3: a `(alert_id, deal_link)` pair already present in the persistent
ledger is never staged for the batched `mark_deals_seen_batch` write during a
sweep, and emitted records stay in bijection with staged keys, so no record is
emitted for that pair either; the in-memory cache starts empty on every call
(`check_alerts` folds from `initState`), so it is only ever consulted within
the same sweep. -/
theorem check_alerts_ledger_seen_skip
    (queries : List String) (scrape : String → FetchResult)
    (subsOf : String → List Sub) (ledger : Nat → String → Bool) (now : Int)
    (a : Nat) (l : String) (notifs : List Notif) (batch : List (Nat × String))
    (hseen : ledger a l = true)
    (h : check_alerts queries scrape subsOf ledger now = Except.ok (notifs, batch)) :
    (a, l) ∉ batch ∧ notifs.length = batch.length ∧ initState.seen_in_cycle = [] := by
  unfold check_alerts at h
  cases hfold : foldE (queryStep scrape subsOf ledger now) initState queries with
  | error e => rw [hfold] at h; cases h
  | ok st =>
    rw [hfold] at h
    cases h
    have hled : LedgerInv ledger st :=
      check_alerts_pres (LedgerInv ledger) ledger
        (fun query deal p s sub hs => subStep_ledger ledger query deal p s sub hs)
        (by intro k hk; cases hk)
        queries scrape subsOf now st hfold
    have hinv : DedupInv st :=
      check_alerts_pres DedupInv ledger
        (fun query deal p s sub hs => subStep_dedup ledger query deal p s sub hs)
        (by refine ⟨List.nodup_nil, ?_, rfl⟩; intro k hk; cases hk)
        queries scrape subsOf now st hfold
    refine ⟨?_, hinv.2.2, rfl⟩
    intro hk
    have := hled (a, l) hk
    rw [hseen] at this
    cases this

theorem check_alerts_ledger_seen_skip_witness :
    ((1 : Nat), "L") ∉ ([] : List (Nat × String)) ∧
      ([] : List Notif).length = ([] : List (Nat × String)).length ∧
      initState.seen_in_cycle = [] :=
  check_alerts_ledger_seen_skip (["q"]) wScrape wSubs wLedgerT 0 1 ("L") [] []
    (by decide) (by decide)

/-- Claim C2: in the per-(subscriber, deal) resolution of `check_alerts`
(`subStep`, reached with `p` the parsed deal price), once steps 1 and 2 fell
through (key not in the same-sweep cache, not in the ledger): a set cap with
`0 < p` and `cap < p` rejects the pair leaving the state untouched — no
record emitted, nothing staged for persistence, nothing added to the
in-memory cache, so the deal stays eligible in future sweeps; while no cap, a
parsed price of 0, or a price at or below the cap emits the record and stages
the key. -/
theorem check_alerts_subscriber_cap
    (ledger : Nat → String → Bool) (query : String) (deal : Deal) (p mp : Rat)
    (st : SweepState) (sub : Sub)
    (h1 : (sub.id, deal.link) ∉ st.seen_in_cycle)
    (h2 : ledger sub.id deal.link = false) :
    (sub.max_price = some mp → 0 < p → mp < p →
      subStep ledger query deal p st sub = st) ∧
    (sub.max_price = none ∨ p = 0 ∨ (sub.max_price = some mp ∧ p ≤ mp) →
      subStep ledger query deal p st sub =
        { notifications := st.notifications ++ [⟨sub.user_id, deal, query⟩]
          batch_seen := st.batch_seen ++ [(sub.id, deal.link)]
          seen_in_cycle := st.seen_in_cycle ++ [(sub.id, deal.link)] }) := by
  constructor
  · intro hmp hp0 hpm
    unfold subStep
    rw [if_neg h1, h2]
    simp [capGate, hmp, hp0, hpm]
  · intro hpass
    unfold subStep
    rw [if_neg h1, h2]
    rcases hpass with hmp | hp0 | ⟨hmp, hple⟩
    · simp [capGate, hmp]
    · cases sub.max_price <;> simp [capGate, hp0]
    · simp [capGate, hmp, not_lt.mpr hple]

/-- A state with one unrelated key already staged, to exercise C2. -/
def wState : SweepState :=
  { notifications := [], batch_seen := [], seen_in_cycle := [((7 : Nat), "other")] }

theorem check_alerts_subscriber_cap_witness :
    (subStep wLedgerF ("q") wDeal 150 wState ⟨1, 10, some 100⟩ = wState) ∧
    (subStep wLedgerF ("q") wDeal 80 wState ⟨1, 10, some 100⟩ =
      { notifications := [⟨10, wDeal, "q"⟩]
        batch_seen := [((1 : Nat), "L")]
        seen_in_cycle := [((7 : Nat), "other"), ((1 : Nat), "L")] }) :=
  ⟨(check_alerts_subscriber_cap wLedgerF ("q") wDeal 150 100 wState ⟨1, 10, some 100⟩
      (by decide) (by decide)).1 rfl (by norm_num) (by norm_num),
   (check_alerts_subscriber_cap wLedgerF ("q") wDeal 80 100 wState ⟨1, 10, some 100⟩
      (by decide) (by decide)).2 (Or.inr (Or.inr ⟨rfl, by norm_num⟩))⟩

/-- Claim C8: `filter_deals` is idempotent for a fixed configuration and
evaluation instant — whenever a first application succeeds with `out`,
re-applying it to `out` succeeds and returns `out` unchanged — and the output
is a sublist of the input (order of survivors preserved).  The embedding is a
pure function, so input mutation does not arise. -/
theorem filter_deals_idempotent (cfg : FilterConfig) (now : Int) (ds out : List Deal)
    (h : filter_deals cfg now ds = Except.ok out) :
    filter_deals cfg now out = Except.ok out ∧ List.Sublist out ds :=
  ⟨filter_deals_all cfg now out (filter_deals_keep cfg now ds out h),
   filter_deals_sublist cfg now ds out h⟩

/-- A deal rejected by the temperature gate (40° < 50°). -/
def wDealCold : Deal := { wDeal with link := "L2", temperature := 40 }

theorem filter_deals_idempotent_witness :
    filter_deals defaultCfg 0 ([wDeal]) = Except.ok ([wDeal]) ∧
      List.Sublist ([wDeal]) ([wDeal, wDealCold]) :=
  filter_deals_idempotent defaultCfg 0 ([wDeal, wDealCold]) ([wDeal]) (by decide)

/-- Claim C5: the price parser maps `"12,50 zł"` to 12.50, any non-empty input
whose cleaned form contains a recognized free-of-charge keyword to 0.0, and
the empty string or a missing value to a parse failure (`none`); the filter's
price gate then rejects a deal whose price fails to parse instead of
defaulting to 0 or letting it through. -/
theorem price_parsing_spec (d : Deal) (mp : Option Rat) (s : String) :
    DealFilter.parse_price (some ("12,50 zł")) = some (12.5 : Rat) ∧
    DealFilter.parse_price (some ("")) = none ∧
    DealFilter.parse_price none = none ∧
    (s ≠ "" → hasKw (cleanPrice s) = true → DealFilter.parse_price (some s) = some 0) ∧
    (DealFilter.parse_price d.price = none → priceGate mp d = false) := by
  refine ⟨?_, by decide, rfl, ?_, ?_⟩
  · have h125 : (12.5 : Rat) = mkRat 25 2 := by norm_num
    rw [h125]
    decide
  · intro hs hkw
    simp [DealFilter.parse_price, hs, hkw]
  · intro hnone
    simp [priceGate, hnone]

/-- A deal whose price text does not parse as a number. -/
def wDealBadPrice : Deal := { wDeal with link := "L3", price := some ("abc") }

theorem price_parsing_spec_witness :
    DealFilter.parse_price (some ("Darmowa dostawa")) = some 0 ∧
      priceGate none wDealBadPrice = false :=
  ⟨(price_parsing_spec wDealBadPrice none ("Darmowa dostawa")).2.2.2.1 (by decide) (by decide),
   (price_parsing_spec wDealBadPrice none ("Darmowa dostawa")).2.2.2.2 (by decide)⟩

/-- Claim C10: free-keyword recognition is substring-based — any non-empty
price string whose cleaned form contains `darm`, `free` or `bezpłatn`
anywhere (digits in the same phrase notwithstanding) parses to 0.0 under both
price parsers, so the deal passes the price-validity gate, the 1,000,000
ceiling, and (price 0 being exempt) every subscriber `max_price` cap. -/
theorem free_keyword_substring (s : String) (mp : Option Rat) (cap : Rat) (d : Deal)
    (hne : s ≠ "")
    (hkw : listHasSub ("darm").data (cleanPrice s).data = true ∨
           listHasSub ("free").data (cleanPrice s).data = true ∨
           listHasSub ("bezpłatn").data (cleanPrice s).data = true)
    (hd : d.price = some s) :
    DealFilter.parse_price d.price = some 0 ∧
    AlertsManager.parse_price d.price = some 0 ∧
    priceGate mp d = true ∧
    capGate (some cap) 0 = false := by
  have hk : hasKw (cleanPrice s) = true := by
    unfold hasKw
    rcases hkw with h | h | h <;> simp [h]
  have hdf : DealFilter.parse_price d.price = some 0 := by
    rw [hd]
    simp [DealFilter.parse_price, hne, hk]
  have ham : AlertsManager.parse_price d.price = some 0 := by
    rw [hd]
    simp [AlertsManager.parse_price, hne, hk]
  have hmax : ¬((0 : Rat) > MAX_REASONABLE_PRICE) := by norm_num [MAX_REASONABLE_PRICE]
  have hcap : ∀ m : Option Rat, capGate m 0 = false := by
    intro m
    cases m <;> simp [capGate]
  refine ⟨hdf, ham, ?_, hcap (some cap)⟩
  simp [priceGate, hdf, hmax, hcap mp]

/-- A deal whose price text is a free-shipping phrase containing digits. -/
def wFreeDeal : Deal := { wDeal with link := "L4", price := some ("za darmo przy zakupie 199 zł") }

theorem free_keyword_substring_witness :
    DealFilter.parse_price wFreeDeal.price = some 0 ∧
    AlertsManager.parse_price wFreeDeal.price = some 0 ∧
    priceGate (some 50) wFreeDeal = true ∧
    capGate (some 50) 0 = false :=
  free_keyword_substring ("za darmo przy zakupie 199 zł") (some 50) 50 wFreeDeal
    (by decide) (Or.inl (by decide)) (by decide)

/-- A network stub that fails with the same client error on every attempt. -/
def netBoom : Nat → FetchAttempt := fun _ => FetchAttempt.netError ("boom")

/-- Claim C4, counterexample: exhausting all three attempts on network errors
returns a failure carrying the error's own message (`str(e)` on the last
attempt), not the distinct `Max retries exceeded` failure the claim requires
for every transient class. -/
theorem fetch_netfail_counterexample :
    fetch_and_parse netBoom 5 3 = failRes ("boom") ∧
    failRes ("boom") ≠ failRes ("Max retries exceeded") :=
  ⟨by decide, by decide⟩

/-- Claim C4 as amended: `_fetch_and_parse` always returns a tagged result
(total by construction); status 200 succeeds with the extracted deals
truncated to `limit`; a non-200, non-transient status fails immediately with
an `HTTP <status>` failure and no retry; transient statuses (429/500/502/
503/504) are retried (with backoff, not modelled) and exhausting all three
attempts on them returns the distinct `Max retries exceeded` failure; network
errors/timeouts are also retried, but exhausting the attempts on them returns
a failure carrying the final error's own message instead. -/
theorem fetch_failure_classes (net : Nat → FetchAttempt) (limit : Nat)
    (h0 h1 h2 : Html) (c c0 c1 c2 : Nat) (m0 m1 m2 : String) :
    (net 0 = FetchAttempt.status 200 h0 →
      fetch_and_parse net limit 3 =
        { success := true, error := none,
          deals := (extract_deals_from_html h0).take limit,
          total := some (extract_deals_from_html h0).length }) ∧
    (net 0 = FetchAttempt.status c h0 → c ≠ 200 → isTransient c = false →
      fetch_and_parse net limit 3 = failRes ("HTTP " ++ toString c)) ∧
    (net 0 = FetchAttempt.status c0 h0 → net 1 = FetchAttempt.status c1 h1 →
      net 2 = FetchAttempt.status c2 h2 →
      isTransient c0 = true → isTransient c1 = true → isTransient c2 = true →
      fetch_and_parse net limit 3 = failRes ("Max retries exceeded")) ∧
    (net 0 = FetchAttempt.netError m0 → net 1 = FetchAttempt.netError m1 →
      net 2 = FetchAttempt.netError m2 →
      fetch_and_parse net limit 3 = failRes m2) := by
  have hr : List.range 3 = [0, 1, 2] := rfl
  refine ⟨?_, ?_, ?_, ?_⟩
  · intro hn
    simp [fetch_and_parse, hr, fetchLoop, hn]
  · intro hn hc ht
    simp [fetch_and_parse, hr, fetchLoop, hn, hc, ht]
  · intro hn0 hn1 hn2 ht0 ht1 ht2
    have hc0 : ¬(c0 = 200) := by intro hc; subst hc; simp [isTransient] at ht0
    have hc1 : ¬(c1 = 200) := by intro hc; subst hc; simp [isTransient] at ht1
    have hc2 : ¬(c2 = 200) := by intro hc; subst hc; simp [isTransient] at ht2
    simp [fetch_and_parse, hr, fetchLoop, hn0, hn1, hn2, ht0, ht1, ht2, hc0, hc1, hc2]
  · intro hn0 hn1 hn2
    simp [fetch_and_parse, hr, fetchLoop, hn0, hn1, hn2]

/-- An empty page, for exercising the fetch theorems. -/
def wHtmlE : Html := ⟨[], []⟩

theorem fetch_failure_classes_witness :
    fetch_and_parse netBoom 7 3 = failRes ("boom") :=
  (fetch_failure_classes netBoom 7 wHtmlE wHtmlE wHtmlE 0 0 0 0 ("boom") ("boom")
    ("boom")).2.2.2 rfl rfl rfl

/-- A thread decoded by Strategy A that survives every discard check. -/
def wThread : Thread :=
  { status := "active", isExpired := false, isArchived := false, title := "T",
    threadId := "123", titleSlug := "super-deal", shareableLink := "",
    price := some 12, nextBestPrice := none, temperature := 60, merchant := some ("Shop"),
    mainImage := none, voucherCode := "", publishedAt := IsoField.absent }

/-- The deal `_parse_thread_data` produces from `wThread`. -/
def wDealA : Deal :=
  { title := "T", link := "https://www.pepper.pl/promocje/super-deal-123",
    price := some (toString (12 : Rat) ++ " zł"), next_best_price := none,
    temperature := 60, merchant := "Shop", image_url := none,
    voucher_code := some (""), posted_timestamp := none, status := "active" }

/-- A page where Strategy A finds one decodable thread. -/
def wHtml : Html := ⟨[VueElement.notNormalizer, VueElement.thread wThread], []⟩

/-- A network stub answering 200 with `wHtml` on every attempt. -/
def wNet : Nat → FetchAttempt := fun _ => FetchAttempt.status 200 wHtml

/-- Claim C7: extraction tries Strategy A first and returns its output
whenever it is non-empty; Strategy B is consulted only when Strategy A yields
zero items; when both yield zero the fetch still returns a success — with an
empty deal list, `success` true and no error tag, distinct from a fetch
failure — and on every 200 response truncation to the caller's `limit`
happens only after full extraction, the reported `total` being the full
pre-truncation count. -/
theorem extract_strategy_fallback (h : Html) (net : Nat → FetchAttempt) (limit : Nat)
    (h200 : net 0 = FetchAttempt.status 200 h) :
    extract_deals_from_html h = (if stratA h ≠ [] then stratA h else stratB h) ∧
    (stratA h ≠ [] → extract_deals_from_html h = stratA h) ∧
    (stratA h = [] → extract_deals_from_html h = stratB h) ∧
    (stratA h = [] → stratB h = [] →
      fetch_and_parse net limit 3 =
        { success := true, error := none, deals := [], total := some 0 }) ∧
    fetch_and_parse net limit 3 =
      { success := true, error := none,
        deals := (extract_deals_from_html h).take limit,
        total := some (extract_deals_from_html h).length } := by
  have hr : List.range 3 = [0, 1, 2] := rfl
  have hfetch : fetch_and_parse net limit 3 =
      { success := true, error := none,
        deals := (extract_deals_from_html h).take limit,
        total := some (extract_deals_from_html h).length } := by
    simp [fetch_and_parse, hr, fetchLoop, h200]
  refine ⟨rfl, ?_, ?_, ?_, hfetch⟩
  · intro ha
    simp [extract_deals_from_html, ha]
  · intro ha
    simp [extract_deals_from_html, ha]
  · intro ha hb
    rw [hfetch]
    simp [extract_deals_from_html, ha, hb]

theorem extract_strategy_fallback_witness :
    extract_deals_from_html wHtml = stratA wHtml ∧
    fetch_and_parse wNet 5 3 =
      { success := true, error := none,
        deals := (extract_deals_from_html wHtml).take 5,
        total := some (extract_deals_from_html wHtml).length } :=
  ⟨(extract_strategy_fallback wHtml wNet 5 rfl).2.1 (by decide),
   (extract_strategy_fallback wHtml wNet 5 rfl).2.2.2.2⟩

/-- A thread carrying a present source amount of 0 for both price fields. -/
def threadZeroPrice : Thread := { wThread with price := some 0, nextBestPrice := some 0 }

/-- The deal `_parse_thread_data` produces from `threadZeroPrice`. -/
def dealZeroPrice : Deal := { wDealA with price := none, next_best_price := none }

/-- Claim C6, counterexample: a thread whose source amount is present and
equal to 0 (a confirmed free listing) is rendered with a null price — the
f-string guard `if price` uses Python truthiness, conflating a present 0 with
an absent amount, where the claim requires the string `0 zł`. -/
theorem price_zero_counterexample :
    parse_thread_data threadZeroPrice = some dealZeroPrice ∧
    dealZeroPrice.price = none ∧ dealZeroPrice.next_best_price = none :=
  ⟨by rfl, rfl, rfl⟩

/-- Claim C6 as amended: Strategy A renders the deal's price as
`"<amount> zł"` exactly when the source amount is present and non-zero
(Python truthiness); a present amount of 0 is conflated with an absent one
and both yield null; likewise for `next_best_price`. -/
theorem price_render_truthiness (t : Thread) (d : Deal) (v w : Rat)
    (hp : parse_thread_data t = some d) :
    (t.price = some v → v ≠ 0 → d.price = some (toString v ++ " zł")) ∧
    ((t.price = none ∨ t.price = some 0) → d.price = none) ∧
    (t.nextBestPrice = some w → w ≠ 0 → d.next_best_price = some (toString w ++ " zł")) ∧
    ((t.nextBestPrice = none ∨ t.nextBestPrice = some 0) → d.next_best_price = none) := by
  have hd : d.price = render_price t.price ∧
      d.next_best_price = render_price t.nextBestPrice := by
    unfold parse_thread_data at hp
    split at hp
    · cases hp
    · cases hp
      exact ⟨rfl, rfl⟩
  refine ⟨?_, ?_, ?_, ?_⟩
  · intro hv hne
    rw [hd.1, hv]
    simp [render_price, hne]
  · intro hv
    rcases hv with hv | hv <;> rw [hd.1, hv] <;> simp [render_price]
  · intro hw hne
    rw [hd.2, hw]
    simp [render_price, hne]
  · intro hw
    rcases hw with hw | hw <;> rw [hd.2, hw] <;> simp [render_price]

theorem price_render_truthiness_witness :
    wDealA.price = some (toString (12 : Rat) ++ " zł") ∧ wDealA.next_best_price = none :=
  ⟨(price_render_truthiness wThread wDealA 12 1 (by rfl)).1 rfl (by norm_num),
   (price_render_truthiness wThread wDealA 12 1 (by rfl)).2.2.2 (Or.inl rfl)⟩

/-- A Strategy A thread whose `publishedAt` carries a trailing `Z`, posted 30
hours (108000 seconds) before the evaluation instant 0. -/
def threadAware : Thread := { wThread with publishedAt := IsoField.zulu (-108000) }

/-- The timezone-aware deal `_parse_thread_data` produces from
`threadAware`. -/
def wDealAware : Deal := { wDealA with posted_timestamp := some (PyTime.aware (-108000)) }

/-- The naive counterpart of `wDealAware` (a `publishedAt` without zone). -/
def wDealNaiveOld : Deal := { wDealA with posted_timestamp := some (PyTime.naive (-108000)) }

/-- Claim C9, code evaluation at the failing input: Strategy A turns a
`Z`-suffixed `publishedAt` into a timezone-aware datetime, and the freshness
gate of `filter_deals` then compares it against the naive
`datetime.now() - 24h` cutoff, raising an uncaught `TypeError` (`error ()`)
instead of filtering the 30-hour-old deal out; the naive analogue of the same
deal is filtered out as the claim states, and a deal with no timestamp
passes. -/
theorem freshness_aware_crash :
    parse_thread_data threadAware = some wDealAware ∧
    filter_deals defaultCfg 0 ([wDealAware]) = Except.error () ∧
    filter_deals defaultCfg 0 ([wDealNaiveOld]) = Except.ok [] ∧
    filter_deals defaultCfg 0 ([wDealA]) = Except.ok ([wDealA]) :=
  ⟨by rfl, by rfl, by rfl, by rfl⟩

end PepperPL
